import Mathlib

/-!
Verification development for the `spotifier-core` crate: a shallow embedding
of its pure logic (period parsing and formatting, cache expiry, login and
session-expiry decisions, task-status derivation, user-profile extraction,
request pacing) together with theorems checking the crate's specification.

Rust standard-library string operations used by the crate are modelled at the
character-list level by structurally recursive Lean functions, so that all
definitions evaluate by `decide` on concrete inputs.
-/

namespace Spotifier

/-! ## Models of Rust standard-library string operations -/

/-- Model of Rust `str::split(sep)` for a one-character separator, on the
character list of the string: splits at every occurrence of `sep`; the empty
string yields one empty segment, matching Rust's iterator semantics. -/
def rustSplit (sep : Char) : List Char → List (List Char)
  | [] => [[]]
  | c :: rest =>
    if c = sep then [] :: rustSplit sep rest
    else
      match rustSplit sep rest with
      | [] => [[c]]
      | seg :: segs => (c :: seg) :: segs

/-- Model of Rust `str::trim`: drops leading and trailing whitespace
(ASCII whitespace approximation of Unicode `char::is_whitespace`). -/
def rustTrim (l : List Char) : List Char :=
  ((l.dropWhile Char.isWhitespace).reverse.dropWhile Char.isWhitespace).reverse

/-- Decimal value of a big-endian digit list, as accumulated left to right. -/
def digitsVal (l : List Char) : Nat :=
  l.foldl (fun a c => a * 10 + (c.toNat - 48)) 0

/-- Model of Rust `str::parse::<u16>()`: an optional leading `'+'`, then one
or more ASCII digits; any other shape, or a value above `u16::MAX`, is an
error (`none`). -/
def rustParseU16 (l : List Char) : Option Nat :=
  let body := match l with
    | '+' :: rest => rest
    | other => other
  if body.isEmpty then none
  else if body.all Char.isDigit then
    let v := digitsVal body
    if v < 65536 then some v else none
  else none

/-- The decimal character of a digit value below ten (used by the model of
Rust's `Display` for unsigned integers). -/
def digitChar10 (d : Nat) : Char :=
  if d = 0 then '0' else if d = 1 then '1' else if d = 2 then '2'
  else if d = 3 then '3' else if d = 4 then '4' else if d = 5 then '5'
  else if d = 6 then '6' else if d = 7 then '7' else if d = 8 then '8'
  else '9'

/-- Fuel-driven core of the decimal printer, mirroring the structure of
digit-at-a-time division printing. -/
def natPrintAux : Nat → Nat → List Char → List Char
  | 0, _, acc => acc
  | fuel + 1, n, acc =>
    if n / 10 = 0 then digitChar10 (n % 10) :: acc
    else natPrintAux fuel (n / 10) (digitChar10 (n % 10) :: acc)

/-- Model of Rust `format!` / `Display` for an unsigned integer: its decimal
digit string. -/
def natPrint (n : Nat) : List Char := natPrintAux (n + 1) n []

/-! ## Models of `src/models.rs` -/

/-- The academic semester kind (`Semester` in `src/models.rs`). -/
inductive Semester
  | Odd
  | Even
  | Short
deriving DecidableEq

/-- `Semester::as_num`: the numeric code used in the SPOT URL scheme. -/
def Semester.as_num : Semester → Nat
  | .Odd => 1
  | .Even => 2
  | .Short => 3

/-- An academic period (`Period` in `src/models.rs`); `year` is a `u16` in
the source, modelled as `Nat`. -/
structure Period where
  year : Nat
  semester : Semester
deriving DecidableEq

/-- `Period::new`. -/
def Period.new (year : Nat) (semester : Semester) : Period :=
  ⟨year, semester⟩

/-- `Period::format`: the compact numeric form `"{year}{semesterNumber}"`. -/
def Period.format (p : Period) : String :=
  ⟨natPrint p.year ++ natPrint p.semester.as_num⟩

/-- The error type (`ScraperError` in `src/error.rs`; the `InvalidPeriod`,
`TaskSubmissionFailed` and `TaskDeletionFailed` variants are constructed in
`src/client.rs` and listed in the spec's error taxonomy). -/
inductive ScraperError
  | RequestError (msg : String)
  | ParsingError (msg : String)
  | SessionExpired
  | AuthenticationFailed
  | TokenNotFound
  | ElementNotFound (what : String)
  | InvalidPeriod (msg : String)
  | TaskSubmissionFailed (msg : String)
  | TaskDeletionFailed (msg : String)
deriving DecidableEq

/-- The dash-separated, trimmed parts of an academic-year label:
`s.split('-').map(|p| p.trim()).collect()` in `Period::from_academic_year_string`. -/
def academicYearParts (s : String) : List (List Char) :=
  (rustSplit '-' s.data).map rustTrim

/-- The first slash-segment of the year part: `year_part.split('/').next()`
(Rust's `split` always yields at least one segment). -/
def firstSlashSegment (l : List Char) : List Char :=
  (rustSplit '/' l).headD []

/-- The semester-token match of `Period::from_academic_year_string`, applied
to the already-lowercased token. -/
def semesterFromToken (l : List Char) : Option Semester :=
  if l = "genap".data then some .Even
  else if l = "ganjil".data then some .Odd
  else if l = "sp".data then some .Short
  else if l = "semester pendek".data then some .Short
  else none

/-- `Period::from_academic_year_string`: parses a human-readable label such
as `"2025/2026 - Genap"`. Mirrors the source order: the two-part check on the
dash split, then the year parse of the first slash-segment, then the
case-insensitive semester-token match; each failure is a `ParsingError`.
`to_lowercase` is modelled by `Char.toLower` per character. -/
def Period.from_academic_year_string (s : String) : Except ScraperError Period :=
  match academicYearParts s with
  | [yearPart, semPart] =>
    match rustParseU16 (firstSlashSegment yearPart) with
    | none => .error (.ParsingError ("Cannot parse year from: " ++ String.mk yearPart))
    | some year =>
      match semesterFromToken (semPart.map Char.toLower) with
      | none =>
          .error (.ParsingError ("Unknown semester type: "
            ++ String.mk (semPart.map Char.toLower)))
      | some sem => .ok (Period.new year sem)
  | _ => .error (.ParsingError ("Invalid academic year format: " ++ s))

/-- `DelayConfig` in `src/models.rs` (`u64` fields modelled as `Nat`). -/
structure DelayConfig where
  min_delay_ms : Nat
  max_delay_ms : Nat
  enabled : Bool
deriving DecidableEq

/-- `TaskStatus` in `src/models.rs`. -/
inductive TaskStatus
  | Pending
  | Submitted
  | Graded
  | NotSubmitted
deriving DecidableEq

/-- `Answer` in `src/models.rs`; `NaiveDateTime` timestamps are modelled as
seconds (`Nat`), and the `f32` score as `Float`. -/
structure Answer where
  id : Option Nat
  content : String
  file_href : Option String
  is_graded : Bool
  lecturer_notes : String
  score : Float
  date_submitted : Option Nat

/-- `User` in `src/models.rs`. -/
structure User where
  name : String
  nim : String
deriving DecidableEq

/-! ## Model of `src/cache.rs` (`FileCache`)

The cache directory is modelled as an association list from keys to stored
entries; `now` arguments stand for `SystemTime::now()` in whole seconds
(`now_secs`). -/

/-- The on-disk record of one cache entry (`CacheEntry` in `src/cache.rs`). -/
structure CacheEntry where
  data : String
  expires_at : Nat
deriving DecidableEq

/-- The modelled cache directory: one entry file per key. -/
abbrev CacheDir := List (String × CacheEntry)

/-- Look up the entry file for a key. -/
def cacheLookup : CacheDir → String → Option CacheEntry
  | [], _ => none
  | (k, e) :: rest, key => if k = key then some e else cacheLookup rest key

/-- Remove the entry file for a key (`fs::remove_file`). -/
def cacheRemove (dir : CacheDir) (key : String) : CacheDir :=
  dir.filter (fun kv => kv.1 ≠ key)

/-- `FileCache::set`: writes the entry `{data: value, expires_at: now + ttl}`
under the key's path, replacing any previous entry (the atomic
write-then-rename of the source collapses, in this crash-free model, to the
replacement it implements). -/
def FileCache.set (dir : CacheDir) (key value : String) (ttl_secs now : Nat) : CacheDir :=
  (key, ⟨value, now + ttl_secs⟩) :: cacheRemove dir key

/-- `FileCache::get`: a missing file is a miss; an entry with
`expires_at < now` is stale — the file is removed and the call is a miss;
otherwise the stored data is returned. Returns the result paired with the
directory state after the call. -/
def FileCache.get (dir : CacheDir) (key : String) (now : Nat) :
    Option String × CacheDir :=
  match cacheLookup dir key with
  | none => (none, dir)
  | some entry =>
    if entry.expires_at < now then (none, cacheRemove dir key)
    else (some entry.data, dir)

/-! ## Models of `src/client.rs` -/

/-- A resolved URL, reduced to the components the client inspects
(`Url::host_str` and `Url::path`); a URL without a host is modelled by an
empty `host`. -/
structure Url where
  host : String
  path : String
deriving DecidableEq

/-- An HTTP response, reduced to the components the client inspects: the
final URL after redirects (`Response::url`), the body (`Response::text`) and
the status code (`Response::status`). -/
structure HttpResponse where
  url : Url
  body : String
  status : Nat
deriving DecidableEq

/-- The SSO login page as `login` sees it after its initial GET: the URL the
response was ultimately served from (`response.url()`), and the value of the
single `input[name="execution"]` element of the body, `none` when the
document has no such element. -/
structure LoginPage where
  served_url : Url
  execution : Option String

/-- The credentials form posted by `login` (a `HashMap` in the source, so
field order is not significant). -/
def loginParams (nim password token : String) : List (String × String) :=
  [("username", nim), ("password", password), ("execution", token),
   ("_eventId", "submit")]

/-- `SpotifierCoreClient::login`, steps 1–3: fail with `TokenNotFound` when
the login page has no `execution` input; otherwise POST the credentials form
to the URL the login page was served from (`post` models the transport), and
succeed exactly when the final URL's host is `spot.upi.edu`, failing with
`AuthenticationFailed` otherwise. -/
def login (page : LoginPage) (post : Url → List (String × String) → HttpResponse)
    (nim password : String) : Except ScraperError Unit :=
  match page.execution with
  | none => .error .TokenNotFound
  | some token =>
    let response := post page.served_url (loginParams nim password token)
    if response.url.host = "spot.upi.edu" then .ok ()
    else .error .AuthenticationFailed

/-- `SpotifierCoreClient::get_html`: fetch `base_url ++ path` (`fetch` models
the transport) and fail with `SessionExpired` when the resolved response
URL's path does not start with the requested path; otherwise return the body. -/
def get_html (fetch : String → HttpResponse) (base_url path : String) :
    Except ScraperError String :=
  let response := fetch (base_url ++ path)
  if path.data.isPrefixOf response.url.path.data then .ok response.body
  else .error .SessionExpired

/-- `SpotifierCoreClient::wait_random`: no sleep when pacing is disabled;
otherwise sleep `rng.random_range(min_delay_ms..=max_delay_ms)` milliseconds.
The returned value is the slept duration; `none` models the panic of
`random_range` on the empty range arising when `min_delay_ms > max_delay_ms`.
`draw lo hi` models the sampler's value on a nonempty range `lo..=hi`. -/
def wait_random (cfg : DelayConfig) (draw : Nat → Nat → Nat) : Option Nat :=
  if !cfg.enabled then some 0
  else if cfg.min_delay_ms ≤ cfg.max_delay_ms then
    some (draw cfg.min_delay_ms cfg.max_delay_ms)
  else none

/-- The artificial delay added at the start of every dispatched call:
`get_request`, `post_request` and `multipart_request` each begin with
`self.wait_random().await` before sending. -/
def dispatched_call_delay (cfg : DelayConfig) (draw : Nat → Nat → Nat) : Option Nat :=
  wait_random cfg draw

/-- `StatusCode::is_success`: `200 ≤ status < 300`. -/
def statusIsSuccess (status : Nat) : Bool :=
  200 ≤ status && status < 300

/-- `StatusCode::is_redirection`: `300 ≤ status < 400`. -/
def statusIsRedirection (status : Nat) : Bool :=
  300 ≤ status && status < 400

/-- The response handling of `SpotifierCoreClient::submit_task` after the
multipart POST: `Ok(())` on a success or redirection status, otherwise
`TaskSubmissionFailed`. -/
def submit_task_outcome (status : Nat) : Except ScraperError Unit :=
  if statusIsSuccess status || statusIsRedirection status then .ok ()
  else .error (.TaskSubmissionFailed
    ("Server returned error status: " ++ String.mk (natPrint status)))

/-- The response handling of `SpotifierCoreClient::delete_task_submission`
after the GET: `Ok(())` on a success or redirection status, otherwise
`TaskDeletionFailed`. -/
def delete_task_submission_outcome (status : Nat) : Except ScraperError Unit :=
  if statusIsSuccess status || statusIsRedirection status then .ok ()
  else .error (.TaskDeletionFailed
    ("Server returned error status: " ++ String.mk (natPrint status)))

/-! ## Model of `src/parsers/user.rs` -/

/-- Accumulator-based splitter on whitespace, dropping empty tokens. -/
def splitWsAux : List Char → List Char → List (List Char)
  | [], acc => if acc.isEmpty then [] else [acc.reverse]
  | c :: rest, acc =>
    if c.isWhitespace then
      if acc.isEmpty then splitWsAux rest []
      else acc.reverse :: splitWsAux rest []
    else splitWsAux rest (c :: acc)

/-- Model of Rust `str::split_whitespace`: maximal runs of non-whitespace
characters, with no empty tokens. -/
def rustSplitWhitespace (l : List Char) : List (List Char) :=
  splitWsAux l []

/-- Model of `[..].join(" ")` on a list of tokens. -/
def joinSpace : List (List Char) → List Char
  | [] => []
  | [t] => t
  | t :: rest => t ++ ' ' :: joinSpace rest

/-- `parse_user_from_html`, over the text of the `.user-profile .profile-text`
node (the `scraper`-crate selection is modelled by the `Option`: `none` when
the document has no such node). The node text is trimmed, split on
whitespace; the last token is the NIM (`ParsingError` when there is none),
the remaining tokens joined by single spaces are the name (`ParsingError`
when empty). -/
def parse_user_from_text (profile_text : Option String) : Except ScraperError User :=
  match profile_text with
  | none => .error (.ElementNotFound "User profile text element")
  | some t =>
    let parts := rustSplitWhitespace (rustTrim t.data)
    match parts.getLast? with
    | none => .error (.ParsingError "Could not extract NIM.")
    | some nim =>
      let name := joinSpace parts.dropLast
      if name.isEmpty then .error (.ParsingError "Could not extract user name.")
      else .ok ⟨String.mk name, String.mk nim⟩

/-! ## Model of the topic detail extractor's status derivation -/

/-- Modelled from the spec: the topic detail extractor
(`src/parsers/topic_detail.rs`, absent from the source tree though called
from `src/client.rs`) derives each `Task`'s `TaskStatus` per spec §4.5:
`Graded` when an `Answer` is present and graded, `Submitted` when present and
ungraded, and with no `Answer`, `NotSubmitted` when the due date has passed
and `Pending` otherwise (also when the due date is absent). Timestamps are
seconds (`Nat`); `now` stands for the extraction time. -/
def determine_task_status (answer : Option Answer) (due_date : Option Nat)
    (now : Nat) : TaskStatus :=
  match answer with
  | some a => if a.is_graded then .Graded else .Submitted
  | none =>
    match due_date with
    | some due => if due < now then .NotSubmitted else .Pending
    | none => .Pending

/-- Equality of `Except` values is decidable when it is on both sides. -/
instance instDecidableEqExcept {ε α : Type} [DecidableEq ε] [DecidableEq α] :
    DecidableEq (Except ε α) := fun a b =>
  match a, b with
  | .error e, .error f => decidable_of_iff (e = f) (by simp)
  | .error _, .ok _ => .isFalse (by simp)
  | .ok _, .error _ => .isFalse (by simp)
  | .ok x, .ok y => decidable_of_iff (x = y) (by simp)

/-! ## Supporting lemmas -/

example : Period.from_academic_year_string "2025/2026 - Genap"
    = .ok (Period.new 2025 .Even) := rfl

example : Period.from_academic_year_string "2024/2025 - Ganjil"
    = .ok (Period.new 2024 .Odd) := rfl

example : Period.from_academic_year_string "2025/2026 - SP"
    = .ok (Period.new 2025 .Short) := rfl

example : (Period.new 2025 .Odd).format = "20251" := by decide

example : (Period.from_academic_year_string "Invalid").isOk = false := by decide

example : parse_user_from_text (some "Jane Doe 1234567")
    = .ok ⟨"Jane Doe", "1234567"⟩ := rfl

theorem digitChar10_isDigit (d : Nat) : (digitChar10 d).isDigit = true := by
  unfold digitChar10
  split_ifs <;> decide

theorem natPrintAux_mem_isDigit :
    ∀ (fuel n : Nat) (acc : List Char), (∀ c ∈ acc, c.isDigit = true) →
      ∀ c ∈ natPrintAux fuel n acc, c.isDigit = true := by
  intro fuel
  induction fuel with
  | zero => intro n acc hacc c hc; exact hacc c hc
  | succ f ih =>
    intro n acc hacc c hc
    have hcons : ∀ c ∈ digitChar10 (n % 10) :: acc, c.isDigit = true := by
      intro x hx
      rcases List.mem_cons.mp hx with h1 | h2
      · subst h1; exact digitChar10_isDigit _
      · exact hacc x h2
    unfold natPrintAux at hc
    by_cases h : n / 10 = 0
    · rw [if_pos h] at hc
      exact hcons c hc
    · rw [if_neg h] at hc
      exact ih (n / 10) _ hcons c hc

theorem natPrint_mem_isDigit (n : Nat) (c : Char) (h : c ∈ natPrint n) :
    c.isDigit = true :=
  natPrintAux_mem_isDigit (n + 1) n [] (by intro x hx; cases hx) c h

theorem rustSplit_of_not_mem (sep : Char) :
    ∀ l : List Char, (∀ c ∈ l, c ≠ sep) → rustSplit sep l = [l] := by
  intro l
  induction l with
  | nil => intro _; rfl
  | cons c rest ih =>
    intro h
    unfold rustSplit
    rw [if_neg (h c (List.mem_cons_self c rest))]
    rw [ih (fun x hx => h x (List.mem_cons_of_mem c hx))]

/-! ## Claim theorems -/

/-- C1: the topic detail extractor's `TaskStatus` derivation (modelled from
the spec, the parser source being absent): with no answer, a past due date
gives `NotSubmitted` and a future or absent due date gives `Pending`; with an
answer, `is_graded = false` gives `Submitted` and `is_graded = true` gives
`Graded`, regardless of the due date. -/
theorem task_status_derivation (a : Answer) (now d : Nat) :
    (d < now → determine_task_status none (some d) now = .NotSubmitted)
    ∧ (now < d → determine_task_status none (some d) now = .Pending)
    ∧ determine_task_status none none now = .Pending
    ∧ (a.is_graded = false →
        ∀ due, determine_task_status (some a) due now = .Submitted)
    ∧ (a.is_graded = true →
        ∀ due, determine_task_status (some a) due now = .Graded) := by
  refine ⟨?_, ?_, rfl, ?_, ?_⟩
  · intro h; simp [determine_task_status, h]
  · intro h
    simp [determine_task_status, show ¬ (d < now) from by omega]
  · intro h due; simp [determine_task_status, h]
  · intro h due; simp [determine_task_status, h]

/-- Witness for C1: all five cases at concrete inputs. -/
theorem task_status_derivation_witness :
    (3 < 10 ∧ determine_task_status none (some 3) 10 = .NotSubmitted)
    ∧ (10 < 12 ∧ determine_task_status none (some 12) 10 = .Pending)
    ∧ determine_task_status none none 10 = .Pending
    ∧ ((⟨none, "", none, false, "", 0.0, none⟩ : Answer).is_graded = false
        ∧ determine_task_status (some ⟨none, "", none, false, "", 0.0, none⟩)
            (some 3) 10 = .Submitted)
    ∧ ((⟨none, "", none, true, "", 0.0, none⟩ : Answer).is_graded = true
        ∧ determine_task_status (some ⟨none, "", none, true, "", 0.0, none⟩)
            (some 3) 10 = .Graded) := by
  have h := task_status_derivation ⟨none, "", none, false, "", 0.0, none⟩ 10 3
  have h2 := task_status_derivation ⟨none, "", none, true, "", 0.0, none⟩ 10 12
  refine ⟨⟨by decide, h.1 (by decide)⟩, ⟨by decide, h2.2.1 (by decide)⟩,
    h.2.2.1, ⟨by decide, h.2.2.2.1 (by decide) (some 3)⟩,
    ⟨by decide, h2.2.2.2.2 (by decide) (some 3)⟩⟩

/-- C2 counterexample: `Period::format` emits the compact numeric form
(`"20251"` for 2025/Odd), which has no dash separator, so
`Period::from_academic_year_string` rejects it rather than returning the
period back. -/
theorem period_roundtrip_counterexample :
    Period.from_academic_year_string (Period.new 2025 .Odd).format
      ≠ .ok (Period.new 2025 .Odd) := by decide

/-- C2 as amended: for every `Period` `p`, parsing the string produced by
`p.format()` fails with a `ParsingError` (the compact numeric form contains
no dash, so the two-part split check rejects it); the parse never yields `p`
back. -/
theorem period_parse_format_fails (p : Period) :
    Period.from_academic_year_string p.format
      = .error (.ParsingError ("Invalid academic year format: " ++ p.format)) := by
  have hdata : (p.format).data = natPrint p.year ++ natPrint p.semester.as_num := rfl
  have hne : ∀ c ∈ (p.format).data, c ≠ '-' := by
    intro c hc he
    have hdig : c.isDigit = true := by
      rw [hdata] at hc
      rcases List.mem_append.mp hc with h | h
      · exact natPrint_mem_isDigit _ _ h
      · exact natPrint_mem_isDigit _ _ h
    rw [he] at hdig
    exact absurd hdig (by decide)
  have hparts : academicYearParts p.format = [rustTrim (p.format).data] := by
    unfold academicYearParts
    rw [rustSplit_of_not_mem '-' _ hne]
    rfl
  unfold Period.from_academic_year_string
  rw [hparts]

/-- C3 counterexample: with `ttl = 5` and the entry written at second 100, a
`get` at second 105 — exactly `ttl` seconds after the `set` — still returns
the value, because the staleness test is the strict `expires_at < now`; the
claim demands a miss once ttl seconds have elapsed. -/
theorem cache_ttl_boundary_counterexample :
    (FileCache.get (FileCache.set [] "courses" "v" 5 100) "courses" 105).fst
      = some "v" := by decide

/-- C3 as amended: a `set(key, v, ttl)` at second `t0` followed by a
`get(key)` at second `t1` returns `Some v` while at most `ttl` seconds have
elapsed (`t1 - t0 ≤ ttl`, the entry state unchanged), and once strictly more
than `ttl` seconds have elapsed it is a miss that removes the stale entry
file. -/
theorem cache_set_get_ttl (dir : CacheDir) (key value : String)
    (ttl t0 t1 : Nat) (h01 : t0 ≤ t1) :
    (t1 - t0 ≤ ttl →
      FileCache.get (FileCache.set dir key value ttl t0) key t1
        = (some value, FileCache.set dir key value ttl t0))
    ∧ (ttl < t1 - t0 →
      FileCache.get (FileCache.set dir key value ttl t0) key t1
        = (none, cacheRemove (FileCache.set dir key value ttl t0) key)) := by
  have hlook : cacheLookup (FileCache.set dir key value ttl t0) key
      = some ⟨value, t0 + ttl⟩ := by
    unfold FileCache.set cacheLookup
    rw [if_pos rfl]
  constructor
  · intro h
    simp only [FileCache.get, hlook]
    rw [if_neg (show ¬ (t0 + ttl < t1) from by omega)]
  · intro h
    simp only [FileCache.get, hlook]
    rw [if_pos (show t0 + ttl < t1 from by omega)]

/-- Witness for C3 as amended: a hit 3 seconds after the `set`, and a miss
with removal 6 seconds after the `set`, with `ttl = 5`. -/
theorem cache_set_get_ttl_witness :
    ((100 : Nat) ≤ 103 ∧ 103 - 100 ≤ 5
      ∧ FileCache.get (FileCache.set [] "k" "v" 5 100) "k" 103
          = (some "v", FileCache.set [] "k" "v" 5 100))
    ∧ ((100 : Nat) ≤ 106 ∧ 5 < 106 - 100
      ∧ FileCache.get (FileCache.set [] "k" "v" 5 100) "k" 106
          = (none, cacheRemove (FileCache.set [] "k" "v" 5 100) "k")) := by
  refine ⟨⟨by decide, by decide, ?_⟩, ⟨by decide, by decide, ?_⟩⟩
  · exact (cache_set_get_ttl [] "k" "v" 5 100 103 (by decide)).1 (by decide)
  · exact (cache_set_get_ttl [] "k" "v" 5 100 106 (by decide)).2 (by decide)

/-- C4: `login` fails with `TokenNotFound` when the fetched login page has no
`execution` input; otherwise it posts the credentials form to the URL the
login page was served from, fails with `AuthenticationFailed` when the final
response URL's host differs from `spot.upi.edu`, and returns `Ok(())` when
the host is `spot.upi.edu`. -/
theorem login_outcomes (page : LoginPage)
    (post : Url → List (String × String) → HttpResponse)
    (nim password token : String) :
    (page.execution = none → login page post nim password = .error .TokenNotFound)
    ∧ (page.execution = some token →
        ((post page.served_url (loginParams nim password token)).url.host
            ≠ "spot.upi.edu" →
          login page post nim password = .error .AuthenticationFailed)
        ∧ ((post page.served_url (loginParams nim password token)).url.host
            = "spot.upi.edu" →
          login page post nim password = .ok ())) := by
  refine ⟨fun h => by simp [login, h], fun h => ⟨fun hh => ?_, fun hh => ?_⟩⟩
  · simp [login, h, hh]
  · simp [login, h, hh]

/-- Witness for C4: a token-less page, a post redirecting to the SSO host,
and a post redirecting to the portal host. -/
theorem login_outcomes_witness :
    ((⟨⟨"sso.upi.edu", "/cas/login"⟩, none⟩ : LoginPage).execution = none
      ∧ login ⟨⟨"sso.upi.edu", "/cas/login"⟩, none⟩
          (fun _ _ => ⟨⟨"spot.upi.edu", "/beranda"⟩, "", 200⟩) "n" "p"
        = .error .TokenNotFound)
    ∧ ((⟨⟨"sso.upi.edu", "/cas/login"⟩, some "e1"⟩ : LoginPage).execution = some "e1"
      ∧ ((fun (_ : Url) (_ : List (String × String)) =>
            (⟨⟨"sso.upi.edu", "/cas/login"⟩, "", 200⟩ : HttpResponse))
          ⟨"sso.upi.edu", "/cas/login"⟩ (loginParams "n" "p" "e1")).url.host
          ≠ "spot.upi.edu"
      ∧ login ⟨⟨"sso.upi.edu", "/cas/login"⟩, some "e1"⟩
          (fun _ _ => ⟨⟨"sso.upi.edu", "/cas/login"⟩, "", 200⟩) "n" "p"
        = .error .AuthenticationFailed)
    ∧ (((fun (_ : Url) (_ : List (String × String)) =>
            (⟨⟨"spot.upi.edu", "/beranda"⟩, "", 200⟩ : HttpResponse))
          ⟨"sso.upi.edu", "/cas/login"⟩ (loginParams "n" "p" "e1")).url.host
          = "spot.upi.edu"
      ∧ login ⟨⟨"sso.upi.edu", "/cas/login"⟩, some "e1"⟩
          (fun _ _ => ⟨⟨"spot.upi.edu", "/beranda"⟩, "", 200⟩) "n" "p"
        = .ok ()) := by
  refine ⟨⟨rfl, ?_⟩, ⟨rfl, by decide, ?_⟩, ⟨rfl, ?_⟩⟩
  · exact (login_outcomes ⟨⟨"sso.upi.edu", "/cas/login"⟩, none⟩
      (fun _ _ => ⟨⟨"spot.upi.edu", "/beranda"⟩, "", 200⟩) "n" "p" "e1").1 rfl
  · exact ((login_outcomes ⟨⟨"sso.upi.edu", "/cas/login"⟩, some "e1"⟩
      (fun _ _ => ⟨⟨"sso.upi.edu", "/cas/login"⟩, "", 200⟩) "n" "p" "e1").2 rfl).1
      (by decide)
  · exact ((login_outcomes ⟨⟨"sso.upi.edu", "/cas/login"⟩, some "e1"⟩
      (fun _ _ => ⟨⟨"spot.upi.edu", "/beranda"⟩, "", 200⟩) "n" "p" "e1").2 rfl).2 rfl

/-- C5: a content fetch through `get_html` fails with `SessionExpired`
exactly when the resolved response URL's path does not start with the
requested path; when it does start with it, the page body is returned and no
`SessionExpired` is raised. -/
theorem get_html_session_expiry (fetch : String → HttpResponse)
    (base_url path : String) :
    (path.data.isPrefixOf (fetch (base_url ++ path)).url.path.data = false →
      get_html fetch base_url path = .error .SessionExpired)
    ∧ (path.data.isPrefixOf (fetch (base_url ++ path)).url.path.data = true →
      get_html fetch base_url path = .ok (fetch (base_url ++ path)).body) := by
  constructor <;> intro h <;> simp [get_html, h]

/-- Witness for C5: a redirect to the SSO login path is an expiry; a response
staying on the requested path returns the body. -/
theorem get_html_session_expiry_witness :
    (("/mhs" : String).data.isPrefixOf
        ((fun (_ : String) => (⟨⟨"spot.upi.edu", "/login"⟩, "page", 200⟩ : HttpResponse))
          ("https://spot.upi.edu" ++ "/mhs")).url.path.data = false
      ∧ get_html (fun _ => ⟨⟨"spot.upi.edu", "/login"⟩, "page", 200⟩)
          "https://spot.upi.edu" "/mhs" = .error .SessionExpired)
    ∧ (("/mhs" : String).data.isPrefixOf
        ((fun (_ : String) => (⟨⟨"spot.upi.edu", "/mhs"⟩, "page", 200⟩ : HttpResponse))
          ("https://spot.upi.edu" ++ "/mhs")).url.path.data = true
      ∧ get_html (fun _ => ⟨⟨"spot.upi.edu", "/mhs"⟩, "page", 200⟩)
          "https://spot.upi.edu" "/mhs" = .ok "page") := by
  refine ⟨⟨by decide, ?_⟩, ⟨by decide, ?_⟩⟩
  · exact (get_html_session_expiry (fun _ => ⟨⟨"spot.upi.edu", "/login"⟩, "page", 200⟩)
      "https://spot.upi.edu" "/mhs").1 (by decide)
  · exact (get_html_session_expiry (fun _ => ⟨⟨"spot.upi.edu", "/mhs"⟩, "page", 200⟩)
      "https://spot.upi.edu" "/mhs").2 (by decide)

/-- C6: `Period::from_academic_year_string` fails closed: whenever the input
does not split into exactly two dash-separated parts, or the first
slash-segment of the year part does not parse as a `u16`, or the lowercased
semester token is unrecognized, the result is a `ParsingError` — never a
default `Period`. -/
theorem period_parse_fails_closed (s : String)
    (h : (academicYearParts s).length ≠ 2
      ∨ ∃ yp sp, academicYearParts s = [yp, sp]
          ∧ (rustParseU16 (firstSlashSegment yp) = none
            ∨ semesterFromToken (sp.map Char.toLower) = none)) :
    ∃ msg, Period.from_academic_year_string s = .error (.ParsingError msg) := by
  rcases h with hlen | ⟨yp, sp, heq, hfail⟩
  · refine ⟨"Invalid academic year format: " ++ s, ?_⟩
    rcases hm : academicYearParts s with _ | ⟨a, _ | ⟨b, _ | ⟨c, t⟩⟩⟩
    · simp only [Period.from_academic_year_string, hm]
    · simp only [Period.from_academic_year_string, hm]
    · rw [hm] at hlen; simp at hlen
    · simp only [Period.from_academic_year_string, hm]
  · rcases hfail with hyear | hsem
    · exact ⟨"Cannot parse year from: " ++ String.mk yp, by
        simp only [Period.from_academic_year_string, heq, hyear]⟩
    · rcases hy : rustParseU16 (firstSlashSegment yp) with _ | y
      · exact ⟨"Cannot parse year from: " ++ String.mk yp, by
          simp only [Period.from_academic_year_string, heq, hy]⟩
      · exact ⟨"Unknown semester type: " ++ String.mk (sp.map Char.toLower), by
          simp only [Period.from_academic_year_string, heq, hy, hsem]⟩

/-- Witness for C6: the label `"Invalid"` has no dash separator and is
rejected. -/
theorem period_parse_fails_closed_witness :
    ((academicYearParts "Invalid").length ≠ 2
      ∨ ∃ yp sp, academicYearParts "Invalid" = [yp, sp]
          ∧ (rustParseU16 (firstSlashSegment yp) = none
            ∨ semesterFromToken (sp.map Char.toLower) = none))
    ∧ ∃ msg, Period.from_academic_year_string "Invalid"
        = .error (.ParsingError msg) :=
  ⟨Or.inl (by decide), period_parse_fails_closed "Invalid" (Or.inl (by decide))⟩

/-- C7: the user-profile extractor, on the profile node's text: the general
split-on-whitespace behavior (last token is the NIM, the rest joined by
single spaces is the name), the `"Jane Doe 1234567"` instance, and the error
cases — `ElementNotFound` with no profile node, `ParsingError` on empty text
and on a single token (empty name). -/
theorem parse_user_outcomes (t u v : String) (tok : List Char) :
    parse_user_from_text (some "Jane Doe 1234567") = .ok ⟨"Jane Doe", "1234567"⟩
    ∧ parse_user_from_text none = .error (.ElementNotFound "User profile text element")
    ∧ (rustSplitWhitespace (rustTrim t.data) = [] →
        parse_user_from_text (some t) = .error (.ParsingError "Could not extract NIM."))
    ∧ (rustSplitWhitespace (rustTrim u.data) = [tok] →
        parse_user_from_text (some u)
          = .error (.ParsingError "Could not extract user name."))
    ∧ (∀ parts nim, rustSplitWhitespace (rustTrim v.data) = parts →
        parts.getLast? = some nim → (joinSpace parts.dropLast).isEmpty = false →
        parse_user_from_text (some v)
          = .ok ⟨String.mk (joinSpace parts.dropLast), String.mk nim⟩) := by
  refine ⟨rfl, rfl, fun h => ?_, fun h => ?_, fun parts nim hp hl hn => ?_⟩
  · simp [parse_user_from_text, h]
  · simp [parse_user_from_text, h, joinSpace]
  · simp [parse_user_from_text, hp, hl, hn]

/-- Witness for C7: whitespace-only text, a single-token text, and a
two-token text. -/
theorem parse_user_outcomes_witness :
    (rustSplitWhitespace (rustTrim (" " : String).data) = []
      ∧ parse_user_from_text (some " ")
          = .error (.ParsingError "Could not extract NIM."))
    ∧ (rustSplitWhitespace (rustTrim ("X" : String).data) = [['X']]
      ∧ parse_user_from_text (some "X")
          = .error (.ParsingError "Could not extract user name."))
    ∧ (rustSplitWhitespace (rustTrim ("A B" : String).data) = [['A'], ['B']]
      ∧ [['A'], ['B']].getLast? = some ['B']
      ∧ (joinSpace [['A'], ['B']].dropLast).isEmpty = false
      ∧ parse_user_from_text (some "A B") = .ok ⟨"A", "B"⟩) := by
  refine ⟨⟨by decide, ?_⟩, ⟨by decide, ?_⟩, ⟨by decide, by decide, by decide, ?_⟩⟩
  · exact (parse_user_outcomes " " "X" "A B" ['X']).2.2.1 (by decide)
  · exact (parse_user_outcomes " " "X" "A B" ['X']).2.2.2.1 (by decide)
  · exact (parse_user_outcomes " " "X" "A B" ['X']).2.2.2.2
      [['A'], ['B']] ['B'] (by decide) (by decide) (by decide)

/-- C8: every dispatched call (`get_request`, `post_request`,
`multipart_request`) first runs `wait_random`: with pacing enabled (and a
well-formed range, claim C10's precondition) it sleeps some `ms` with
`min_delay_ms ≤ ms ≤ max_delay_ms` — so with `min = max = 500` the sleep is
exactly 500 ms; with pacing disabled no artificial delay is added. `draw`
models `random_range` on a nonempty inclusive range. -/
theorem dispatched_call_pacing (cfg : DelayConfig) (draw : Nat → Nat → Nat)
    (hdraw : ∀ lo hi, lo ≤ hi → lo ≤ draw lo hi ∧ draw lo hi ≤ hi) :
    (cfg.enabled = true → cfg.min_delay_ms ≤ cfg.max_delay_ms →
      ∃ ms, dispatched_call_delay cfg draw = some ms
        ∧ cfg.min_delay_ms ≤ ms ∧ ms ≤ cfg.max_delay_ms)
    ∧ (cfg.enabled = false → dispatched_call_delay cfg draw = some 0) := by
  constructor
  · intro he hle
    refine ⟨draw cfg.min_delay_ms cfg.max_delay_ms, ?_,
      (hdraw _ _ hle).1, (hdraw _ _ hle).2⟩
    simp [dispatched_call_delay, wait_random, he, hle]
  · intro he
    simp [dispatched_call_delay, wait_random, he]

/-- Witness for C8: with `min = max = 500` and pacing enabled the delay is
exactly 500 ms; disabled pacing sleeps 0 ms. -/
theorem dispatched_call_pacing_witness :
    (∀ lo hi : Nat, lo ≤ hi → lo ≤ (fun lo _ => lo) lo hi ∧ (fun lo _ => lo) lo hi ≤ hi)
    ∧ (⟨500, 500, true⟩ : DelayConfig).enabled = true
    ∧ (⟨500, 500, true⟩ : DelayConfig).min_delay_ms
        ≤ (⟨500, 500, true⟩ : DelayConfig).max_delay_ms
    ∧ (∃ ms, dispatched_call_delay ⟨500, 500, true⟩ (fun lo _ => lo) = some ms
        ∧ 500 ≤ ms ∧ ms ≤ 500)
    ∧ dispatched_call_delay ⟨500, 500, false⟩ (fun lo _ => lo) = some 0 := by
  refine ⟨fun lo hi h => ⟨Nat.le_refl lo, h⟩, rfl, by decide, ?_, ?_⟩
  · exact (dispatched_call_pacing ⟨500, 500, true⟩ (fun lo _ => lo)
      (fun lo hi h => ⟨Nat.le_refl lo, h⟩)).1 rfl (by decide)
  · exact (dispatched_call_pacing ⟨500, 500, false⟩ (fun lo _ => lo)
      (fun lo hi h => ⟨Nat.le_refl lo, h⟩)).2 rfl

/-- C9: `submit_task` returns `Ok(())` exactly when the response status is a
success or redirection status and otherwise `TaskSubmissionFailed`; likewise
`delete_task_submission` with `TaskDeletionFailed`. -/
theorem submission_outcomes (status : Nat) :
    (submit_task_outcome status = .ok ()
      ↔ (statusIsSuccess status || statusIsRedirection status) = true)
    ∧ ((statusIsSuccess status || statusIsRedirection status) = false →
        ∃ msg, submit_task_outcome status = .error (.TaskSubmissionFailed msg))
    ∧ (delete_task_submission_outcome status = .ok ()
      ↔ (statusIsSuccess status || statusIsRedirection status) = true)
    ∧ ((statusIsSuccess status || statusIsRedirection status) = false →
        ∃ msg, delete_task_submission_outcome status
          = .error (.TaskDeletionFailed msg)) := by
  by_cases h : (statusIsSuccess status || statusIsRedirection status) = true
  · refine ⟨?_, ?_, ?_, ?_⟩ <;>
      simp [submit_task_outcome, delete_task_submission_outcome, h]
  · have hf : (statusIsSuccess status || statusIsRedirection status) = false := by
      revert h; cases statusIsSuccess status || statusIsRedirection status <;> simp
    refine ⟨?_,
        fun _ => ⟨"Server returned error status: " ++ String.mk (natPrint status), ?_⟩,
        ?_,
        fun _ => ⟨"Server returned error status: " ++ String.mk (natPrint status), ?_⟩⟩ <;>
      simp [submit_task_outcome, delete_task_submission_outcome, hf]

/-- Witness for C9: status 302 (redirection) succeeds, status 403 fails with
the typed submission and deletion errors. -/
theorem submission_outcomes_witness :
    (submit_task_outcome 302 = .ok ()
      ↔ (statusIsSuccess 302 || statusIsRedirection 302) = true)
    ∧ ((statusIsSuccess 403 || statusIsRedirection 403) = false
      ∧ (∃ msg, submit_task_outcome 403 = .error (.TaskSubmissionFailed msg))
      ∧ (∃ msg, delete_task_submission_outcome 403
          = .error (.TaskDeletionFailed msg))) := by
  refine ⟨(submission_outcomes 302).1, by decide, ?_, ?_⟩
  · exact (submission_outcomes 403).2.1 (by decide)
  · exact (submission_outcomes 403).2.2.2 (by decide)

/-- C10: with pacing enabled and `min_delay_ms > max_delay_ms`, `wait_random`
hits the panic of `random_range` on an empty range (modelled by `none`);
under the precondition `min_delay_ms ≤ max_delay_ms` — or with pacing
disabled — the panic branch is unreachable. -/
theorem wait_random_panic (cfg : DelayConfig) (draw : Nat → Nat → Nat) :
    (cfg.enabled = true → cfg.max_delay_ms < cfg.min_delay_ms →
      wait_random cfg draw = none)
    ∧ (cfg.min_delay_ms ≤ cfg.max_delay_ms ∨ cfg.enabled = false →
      (wait_random cfg draw).isSome = true) := by
  constructor
  · intro he hlt
    simp [wait_random, he, show ¬ cfg.min_delay_ms ≤ cfg.max_delay_ms from by omega]
  · intro h
    rcases h with hle | he
    · cases henb : cfg.enabled <;> simp [wait_random, henb, hle]
    · simp [wait_random, he]

/-- Witness for C10: an inverted range with pacing enabled panics; a
well-formed range and a disabled configuration do not. -/
theorem wait_random_panic_witness :
    ((⟨10, 5, true⟩ : DelayConfig).enabled = true
      ∧ (⟨10, 5, true⟩ : DelayConfig).max_delay_ms
          < (⟨10, 5, true⟩ : DelayConfig).min_delay_ms
      ∧ wait_random ⟨10, 5, true⟩ (fun lo _ => lo) = none)
    ∧ ((⟨1, 3, true⟩ : DelayConfig).min_delay_ms
          ≤ (⟨1, 3, true⟩ : DelayConfig).max_delay_ms
      ∧ (wait_random ⟨1, 3, true⟩ (fun lo _ => lo)).isSome = true)
    ∧ ((⟨10, 5, false⟩ : DelayConfig).enabled = false
      ∧ (wait_random ⟨10, 5, false⟩ (fun lo _ => lo)).isSome = true) := by
  refine ⟨⟨rfl, by decide, ?_⟩, ⟨by decide, ?_⟩, ⟨rfl, ?_⟩⟩
  · exact (wait_random_panic ⟨10, 5, true⟩ (fun lo _ => lo)).1 rfl (by decide)
  · exact (wait_random_panic ⟨1, 3, true⟩ (fun lo _ => lo)).2 (Or.inl (by decide))
  · exact (wait_random_panic ⟨10, 5, false⟩ (fun lo _ => lo)).2 (Or.inr rfl)

end Spotifier
